import Mathlib

/-!
Verification of the Runtime Dependency Bootstrap and Process Supervisor
of the Noises backend (src/backend/cuda_setup.py, src/backend/main.py).

The Python code is shallowly embedded: pure helpers become Lean functions,
filesystem and subprocess effects become explicit state passing over small
record types, and fallible code returns Option values (none standing for a
raised exception where noted).  String manipulation is embedded over
List Char (the .data of a String) so that every definition evaluates
inside the kernel.
-/

namespace Noises

/-!
## Python string primitives

Embeddings of the Python str operations the bootstrap code uses.
-/

/-- Embedding of Python str.strip(): drop whitespace from both ends. -/
def pyStrip (cs : List Char) : List Char :=
  ((cs.dropWhile Char.isWhitespace).reverse.dropWhile Char.isWhitespace).reverse

/-- Embedding of Python str.split(sep) for a one-character separator:
split on every occurrence, keeping empty segments. -/
def splitOnChar (sep : Char) : List Char → List (List Char)
  | [] => [[]]
  | c :: rest =>
    if c = sep then
      [] :: splitOnChar sep rest
    else
      match splitOnChar sep rest with
      | [] => [[c]]
      | seg :: segs => (c :: seg) :: segs

/-- Boolean test that the first list is a leading segment of the second
(Python str.startswith on the remaining text). -/
def isStartOf : List Char → List Char → Bool
  | [], _ => true
  | _ :: _, [] => false
  | p :: ps, c :: cs => p = c && isStartOf ps cs

/-!
## Version tuples and the variant table (cuda_setup.py)

Python compares parsed versions as tuples of ints.  _parse_version returns
a tuple of at most two components, so versions are embedded as lists of
naturals and compared with the lexicographic order Python uses on tuples:
elementwise comparison, a strict prefix being smaller than any extension.
-/

/-- Python tuple comparison on int tuples, specialised to naturals:
lexicographic, with a strict prefix smaller than any extension.
tupleLe a b embeds the Python expression a <= b. -/
def tupleLe : List Nat → List Nat → Bool
  | [], _ => true
  | _ :: _, [] => false
  | a :: as, b :: bs =>
    if a < b then true
    else if b < a then false
    else tupleLe as bs

/-- Embedding of Python int(s) on the version parts the driver-version
parser feeds it: none models the ValueError int raises on an empty or
non-digit part. -/
def parseNatDigits (cs : List Char) : Option Nat :=
  if !cs.isEmpty && cs.all Char.isDigit then
    some (cs.foldl (fun n c => n * 10 + (c.toNat - 48)) 0)
  else
    none

/-- Parse every part of a split version string as a decimal natural;
fails (as int() raises) if any part fails. -/
def parseParts : List (List Char) → Option (List Nat)
  | [] => some []
  | p :: ps =>
    match parseNatDigits p, parseParts ps with
    | some n, some ns => some (n :: ns)
    | _, _ => none

/-- Embedding of cuda_setup._parse_version: strip the string, split on
dots, keep the first two parts, convert each with int().  none models the
ValueError raised on a non-numeric part. -/
def _parse_version (version_str : String) : Option (List Nat) :=
  parseParts ((splitOnChar '.' (pyStrip version_str.data)).take 2)

/-- Embedding of cuda_setup.TORCH_CUDA_VARIANTS: the static table of
supported CUDA variants for PyTorch, newest first.  Each entry is
((major, minor), pip_variant_tag, index_url). -/
def TORCH_CUDA_VARIANTS : List ((List Nat) × String × String) :=
  [ ([13, 0], "cu130", "https://download.pytorch.org/whl/cu130"),
    ([12, 8], "cu128", "https://download.pytorch.org/whl/cu128"),
    ([12, 6], "cu126", "https://download.pytorch.org/whl/cu126"),
    ([12, 4], "cu124", "https://download.pytorch.org/whl/cu124"),
    ([12, 1], "cu121", "https://download.pytorch.org/whl/cu121"),
    ([11, 8], "cu118", "https://download.pytorch.org/whl/cu118") ]

/-- Embedding of cuda_setup.get_best_torch_variant: parse the driver
version, then return the first table entry whose minimum version is <= the
driver version.  The outer Option models exception propagation from
_parse_version (none = the call raises); the inner Option models the
(None, None) "driver too old" result. -/
def get_best_torch_variant (cuda_version_str : String) :
    Option (Option (String × String)) :=
  match _parse_version cuda_version_str with
  | none => none
  | some cuda_ver =>
    match TORCH_CUDA_VARIANTS.find? (fun e => tupleLe e.1 cuda_ver) with
    | some e => some (some (e.2.1, e.2.2))
    | none => some none

/-!
## Order facts about tuple comparison and first-match resolution
-/

theorem tupleLe_refl (l : List Nat) : tupleLe l l = true := by
  induction l with
  | nil => rfl
  | cons a as ih => simp [tupleLe, ih]

theorem tupleLe_trans : ∀ {a b c : List Nat},
    tupleLe a b = true → tupleLe b c = true → tupleLe a c = true := by
  intro a
  induction a with
  | nil => intro b c _ _; rfl
  | cons x xs ih =>
    intro b c hab hbc
    cases b with
    | nil => simp [tupleLe] at hab
    | cons y ys =>
      cases c with
      | nil => simp [tupleLe] at hbc
      | cons z zs =>
        simp only [tupleLe] at hab hbc ⊢
        split_ifs at hab hbc ⊢ <;>
          first
            | rfl
            | omega
            | exact ih hab hbc

/-- The first qualifying entry found in a table whose minimum versions are
sorted newest-first is the entry with the greatest qualifying minimum. -/
theorem find_first_is_max {v : List Nat} :
    ∀ {l : List ((List Nat) × String × String)},
      l.Pairwise (fun x y => tupleLe y.1 x.1 = true) →
      ∀ {e}, l.find? (fun x => tupleLe x.1 v) = some e →
      ∀ e' ∈ l, tupleLe e'.1 v = true → tupleLe e'.1 e.1 = true := by
  intro l
  induction l with
  | nil => intro _ e he; simp at he
  | cons hd tl ih =>
    intro hs e he e' he' hq
    rw [List.pairwise_cons] at hs
    by_cases hhd : tupleLe hd.1 v = true
    · simp only [List.find?, hhd, cond_true] at he
      cases he
      rcases List.mem_cons.mp he' with h | h
      · subst h; exact tupleLe_refl _
      · exact hs.1 e' h
    · rw [Bool.not_eq_true] at hhd
      simp only [List.find?, hhd, cond_false] at he
      rcases List.mem_cons.mp he' with h | h
      · subst h; rw [hq] at hhd; cases hhd
      · exact ih hs.2 he e' h hq

/-- The oldest table entry has the least minimum version: every entry's
minimum dominates (11, 8). -/
theorem cu118_is_least :
    ∀ e ∈ TORCH_CUDA_VARIANTS, tupleLe [11, 8] e.1 = true := by decide

theorem torch_variants_sorted :
    TORCH_CUDA_VARIANTS.Pairwise (fun x y => tupleLe y.1 x.1 = true) := by
  decide

/-- Claim C1: for every driver version string that parses to a
(major, minor) pair, get_best_torch_variant returns the tag and index URL
of the first entry of the newest-first table whose minimum version is <=
the parsed version, and that entry has the greatest qualifying minimum
version; it returns (None, None) exactly when even the oldest entry's
requirement (11, 8) exceeds the driver version.  Concretely, "12.5"
resolves to cu124 and "11.0" is not supported. -/
theorem claim1 (V : String) (a b : Nat) (hV : _parse_version V = some [a, b]) :
    (∀ e, TORCH_CUDA_VARIANTS.find? (fun x => tupleLe x.1 [a, b]) = some e →
        get_best_torch_variant V = some (some (e.2.1, e.2.2)) ∧
        ∀ e' ∈ TORCH_CUDA_VARIANTS,
          tupleLe e'.1 [a, b] = true → tupleLe e'.1 e.1 = true) ∧
    (get_best_torch_variant V = some none ↔ tupleLe [11, 8] [a, b] = false) ∧
    get_best_torch_variant "12.5" =
      some (some ("cu124", "https://download.pytorch.org/whl/cu124")) ∧
    get_best_torch_variant "11.0" = some none := by
  refine ⟨?_, ?_, by decide, by decide⟩
  · intro e he
    constructor
    · simp [get_best_torch_variant, hV, he]
    · exact fun e' he' hq => find_first_is_max torch_variants_sorted he e' he' hq
  · constructor
    · intro h
      by_contra hq
      rw [Bool.not_eq_false] at hq
      have hfind : (TORCH_CUDA_VARIANTS.find?
          (fun x => tupleLe x.1 [a, b])).isSome := by
        rw [List.find?_isSome]
        exact ⟨([11, 8], "cu118", "https://download.pytorch.org/whl/cu118"),
          by decide, hq⟩
      rcases Option.isSome_iff_exists.mp hfind with ⟨e, he⟩
      simp [get_best_torch_variant, hV, he] at h
    · intro h118
      have hall : ∀ x ∈ TORCH_CUDA_VARIANTS,
          ¬ ((fun x => tupleLe x.1 [a, b]) x = true) := by
        intro x hx hq
        have := tupleLe_trans (cu118_is_least x hx) hq
        rw [h118] at this
        exact Bool.false_ne_true this
      have hfind : TORCH_CUDA_VARIANTS.find?
          (fun x => tupleLe x.1 [a, b]) = none :=
        List.find?_eq_none.mpr hall
      simp [get_best_torch_variant, hV, hfind]

/-- Witness for claim1 at the concrete driver version "12.5". -/
theorem claim1_witness :
    get_best_torch_variant "12.5" =
      some (some ("cu124", "https://download.pytorch.org/whl/cu124")) ∧
    (get_best_torch_variant "12.5" = some none ↔
      tupleLe [11, 8] [12, 5] = false) :=
  ⟨((claim1 "12.5" 12 5 (by decide)).1
      (([12, 4], "cu124", "https://download.pytorch.org/whl/cu124"))
      (by decide)).1,
    (claim1 "12.5" 12 5 (by decide)).2.1⟩

/-- Claim C9: resolution is monotonic in the driver version.  If V1 <= V2
as parsed tuples and V1 resolves to an entry e1, then V2 resolves to an
entry e2 whose minimum driver version dominates that of e1. -/
theorem claim9 (V1 V2 : String) (v1 v2 : List Nat)
    (h1 : _parse_version V1 = some v1) (h2 : _parse_version V2 = some v2)
    (h12 : tupleLe v1 v2 = true) :
    ∀ e1, TORCH_CUDA_VARIANTS.find? (fun x => tupleLe x.1 v1) = some e1 →
      ∃ e2, TORCH_CUDA_VARIANTS.find? (fun x => tupleLe x.1 v2) = some e2 ∧
        tupleLe e1.1 e2.1 = true ∧
        get_best_torch_variant V2 = some (some (e2.2.1, e2.2.2)) := by
  intro e1 he1
  have hm1 : e1 ∈ TORCH_CUDA_VARIANTS := List.mem_of_find?_eq_some he1
  have hq1 : tupleLe e1.1 v1 = true := by
    have := List.find?_some he1
    simpa using this
  have hq2 : tupleLe e1.1 v2 = true := tupleLe_trans hq1 h12
  have hfind : (TORCH_CUDA_VARIANTS.find? (fun x => tupleLe x.1 v2)).isSome := by
    rw [List.find?_isSome]
    exact ⟨e1, hm1, hq2⟩
  rcases Option.isSome_iff_exists.mp hfind with ⟨e2, he2⟩
  refine ⟨e2, he2, ?_, ?_⟩
  · exact find_first_is_max torch_variants_sorted he2 e1 hm1 hq2
  · simp [get_best_torch_variant, h2, he2]

/-- Witness for claim9 at V1 = "12.5" and V2 = "13.0". -/
theorem claim9_witness :
    ∃ e2, TORCH_CUDA_VARIANTS.find? (fun x => tupleLe x.1 [13, 0]) = some e2 ∧
      tupleLe [12, 4] e2.1 = true ∧
      get_best_torch_variant "13.0" = some (some (e2.2.1, e2.2.2)) :=
  claim9 "12.5" "13.0" [12, 5] [13, 0] (by decide) (by decide) (by decide)
    (([12, 4], "cu124", "https://download.pytorch.org/whl/cu124")) (by decide)

theorem parseParts_length :
    ∀ {l : List (List Char)} {r : List Nat}, parseParts l = some r →
      r.length = l.length := by
  intro l
  induction l with
  | nil => intro r h; cases h; rfl
  | cons p ps ih =>
    intro r h
    simp only [parseParts] at h
    cases hp : parseNatDigits p with
    | none => rw [hp] at h; cases h
    | some n =>
      rw [hp] at h
      cases hps : parseParts ps with
      | none => rw [hps] at h; cases h
      | some ns =>
        rw [hps] at h
        cases h
        simp [ih hps]

/-- Claim C10: variant resolution compares only the first two numeric
components, and a shorter version tuple compares as a strict prefix: a
parsed version never has more than two components; a one-component tuple
(M) never satisfies a two-component minimum (M, m), even for m = 0, so
"13" resolves to cu128 rather than cu130; "12.4.1" parses and resolves
exactly as "12.4"; and a version string whose first two dot-separated
parts are not decimal digits makes get_best_torch_variant raise (embedded
as the outer none) rather than return the (None, None) result. -/
theorem claim10 :
    (∀ V v, _parse_version V = some v → v.length ≤ 2) ∧
    (∀ M m : Nat, tupleLe [M, m] [M] = false) ∧
    _parse_version "13" = some [13] ∧
    get_best_torch_variant "13" =
      some (some ("cu128", "https://download.pytorch.org/whl/cu128")) ∧
    _parse_version "12.4.1" = _parse_version "12.4" ∧
    get_best_torch_variant "12.4.1" =
      some (some ("cu124", "https://download.pytorch.org/whl/cu124")) ∧
    (∀ V, _parse_version V = none → get_best_torch_variant V = none) ∧
    get_best_torch_variant "x.y" = none := by
  refine ⟨?_, ?_, by decide, by decide, by decide, by decide, ?_, by decide⟩
  · intro V v h
    have hlen := parseParts_length h
    have htake : ((splitOnChar '.' (pyStrip V.data)).take 2).length ≤ 2 := by
      rw [List.length_take]
      omega
    omega
  · intro M m
    simp [tupleLe]
  · intro V h
    simp [get_best_torch_variant, h]

/-- Witness for claim10: the bounded-length component of the claim applied
at the version string "12.4.1", and exception propagation applied at the
unparseable version string "nope". -/
theorem claim10_witness :
    ([12, 4] : List Nat).length ≤ 2 ∧ get_best_torch_variant "nope" = none :=
  ⟨claim10.1 "12.4.1" [12, 4] (by decide),
    claim10.2.2.2.2.2.2.1 "nope" (by decide)⟩

/-!
## Capability prober (detect_nvidia_gpu, detect_cuda_version)

The nvidia-smi subprocess is abstracted as an environment: where the
executable was found (none when no discovery path reaches it) and the
outcome of each of the two invocations.  The Python functions catch
FileNotFoundError and subprocess.TimeoutExpired, skip non-zero exits and
empty or unparseable output, and return None in all of those cases; the
embedding is a total function into Option, so no outcome enumerated by the
claim escapes as an exception.
-/

/-- Outcome of one subprocess.run call on nvidia-smi: the two exception
kinds the code catches, or completion with an exit code and stdout. -/
inductive RunOutcome where
  | fileNotFound
  | timeoutExpired
  | completed (returncode : Int) (stdout : String)
deriving DecidableEq

/-- Environment of the prober: the _find_nvidia_smi result and the
outcomes of the device-query and plain status invocations. -/
structure SmiEnv where
  nvsmi : Option String
  queryGpuRun : RunOutcome
  statusRun : RunOutcome

/-- First line of Python r.stdout.strip(): the characters before the
first newline of the stripped output. -/
def firstLineOfStripped (out : String) : List Char :=
  (pyStrip out.data).takeWhile (fun c => c ≠ '\n')

/-- Embedding of cuda_setup.detect_nvidia_gpu: run nvidia-smi
--query-gpu=name; on a caught exception, a non-zero exit or empty stripped
output return none, else the first output line. -/
def detect_nvidia_gpu (env : SmiEnv) : Option (List Char) :=
  match env.nvsmi with
  | none => none
  | some _ =>
    match env.queryGpuRun with
    | RunOutcome.completed rc out =>
      if rc == 0 && !(pyStrip out.data).isEmpty then
        some (firstLineOfStripped out)
      else none
    | _ => none

/-- Embedding of the regex search for "CUDA Version:" followed by optional
whitespace and one or more digit-or-dot characters: scan every position
left to right, as re.search does, and return the first nonempty token. -/
def findCudaToken : List Char → Option (List Char)
  | [] => none
  | c :: rest =>
    if isStartOf ("CUDA Version:".data) (c :: rest) then
      let after := (c :: rest).drop ("CUDA Version:".data.length)
      let tok := (after.dropWhile Char.isWhitespace).takeWhile
        (fun ch => ch.isDigit || ch = '.')
      if tok.isEmpty then findCudaToken rest else some tok
    else findCudaToken rest

/-- Embedding of cuda_setup.detect_cuda_version: run nvidia-smi with no
arguments; on a caught exception or non-zero exit return none, else the
version token extracted by the regex, none when it does not match. -/
def detect_cuda_version (env : SmiEnv) : Option (List Char) :=
  match env.nvsmi with
  | none => none
  | some _ =>
    match env.statusRun with
    | RunOutcome.completed rc out =>
      if rc == 0 then findCudaToken out.data else none
    | _ => none

/-- Sanity check of the regex embedding on a realistic nvidia-smi banner:
the version token after "CUDA Version:" is extracted. -/
theorem findCudaToken_banner :
    detect_cuda_version
      ⟨some "nvidia-smi", RunOutcome.fileNotFound,
        RunOutcome.completed 0
          "| NVIDIA-SMI 555.42  Driver Version: 555.42  CUDA Version: 12.5 |"⟩
      = some ("12.5".data) := by decide

/-- Claim C6: for every outcome of the diagnostic tool enumerated by the
spec - unreachable through every discovery path, caught invocation
exception (FileNotFoundError or TimeoutExpired), non-zero exit, empty
output, or unparseable output - detect_nvidia_gpu and detect_cuda_version
report the capability as absent (none); both embeddings are total
functions, so none of these outcomes raises to the caller. -/
theorem claim6 (env : SmiEnv) :
    (env.nvsmi = none →
      detect_nvidia_gpu env = none ∧ detect_cuda_version env = none) ∧
    (env.queryGpuRun = RunOutcome.fileNotFound → detect_nvidia_gpu env = none) ∧
    (env.queryGpuRun = RunOutcome.timeoutExpired → detect_nvidia_gpu env = none) ∧
    (∀ rc out, env.queryGpuRun = RunOutcome.completed rc out → rc ≠ 0 →
      detect_nvidia_gpu env = none) ∧
    (∀ rc out, env.queryGpuRun = RunOutcome.completed rc out →
      (pyStrip out.data).isEmpty = true → detect_nvidia_gpu env = none) ∧
    (env.statusRun = RunOutcome.fileNotFound → detect_cuda_version env = none) ∧
    (env.statusRun = RunOutcome.timeoutExpired → detect_cuda_version env = none) ∧
    (∀ rc out, env.statusRun = RunOutcome.completed rc out → rc ≠ 0 →
      detect_cuda_version env = none) ∧
    (∀ rc out, env.statusRun = RunOutcome.completed rc out →
      findCudaToken out.data = none → detect_cuda_version env = none) := by
  obtain ⟨nvsmi, qrun, srun⟩ := env
  refine ⟨?_, ?_, ?_, ?_, ?_, ?_, ?_, ?_, ?_⟩
  · intro h; subst h; exact ⟨rfl, rfl⟩
  · intro h; subst h; cases nvsmi <;> rfl
  · intro h; subst h; cases nvsmi <;> rfl
  · intro rc out h hrc; subst h
    cases nvsmi with
    | none => rfl
    | some s =>
      simp only [detect_nvidia_gpu]
      rw [if_neg]
      simp [hrc]
  · intro rc out h hout; subst h
    cases nvsmi with
    | none => rfl
    | some s =>
      simp only [detect_nvidia_gpu]
      rw [if_neg]
      simp [hout]
  · intro h; subst h; cases nvsmi <;> rfl
  · intro h; subst h; cases nvsmi <;> rfl
  · intro rc out h hrc; subst h
    cases nvsmi with
    | none => rfl
    | some s =>
      simp only [detect_cuda_version]
      rw [if_neg]
      simp [hrc]
  · intro rc out h htok; subst h
    cases nvsmi with
    | none => rfl
    | some s =>
      simp only [detect_cuda_version]
      split_ifs with hrc
      · exact htok
      · rfl

/-- Witness for claim6: the tool is unreachable via every discovery path,
and both probes degrade to an absent report. -/
theorem claim6_witness :
    detect_nvidia_gpu ⟨none, RunOutcome.fileNotFound, RunOutcome.fileNotFound⟩ = none ∧
    detect_cuda_version ⟨none, RunOutcome.fileNotFound, RunOutcome.fileNotFound⟩ = none :=
  (claim6 ⟨none, RunOutcome.fileNotFound, RunOutcome.fileNotFound⟩).1 rfl

/-!
## Runtime installer (install_torch, _install_torch)

The filesystem state relevant to the installer is the cache directory
TORCH_CACHE_DIR: World.cache is none when the directory does not exist and
some entries when it does, entries being the names in the cache tree.  The
marker files .setup_complete and .cuda_variant and the torch package
subdirectory appear as entries.  External effects are abstracted in
InstallEnv: the prober environment, whether any pip strategy succeeds and
what it installs, and whether the verification import succeeds.  The
actions list records every acquisition operation the call performs.
-/

/-- Filesystem state of the torch cache: none when TORCH_CACHE_DIR is not
a directory, else the entry names of the cache tree. -/
structure World where
  cache : Option (List String)
deriving DecidableEq

/-- External effects available to install_torch: the prober environment,
whether some pip strategy succeeds, the entries a successful pip install
creates, and whether the verification import succeeds. -/
structure InstallEnv where
  smi : SmiEnv
  pip_ok : Bool
  pip_payload : List String
  torch_importable : Bool

/-- Acquisition operations install_torch can perform, in the order the
code performs them. -/
inductive SetupAction where
  | probeGpu
  | probeCuda
  | resolveVariant
  | acquire
deriving DecidableEq

/-- Terminal failures of install_torch (each a RuntimeError in the code).
versionParseFailure is the uncaught ValueError get_best_torch_variant
propagates on an unparseable version string. -/
inductive SetupError where
  | hardwareAbsent
  | cudaUndetected
  | versionParseFailure
  | driverTooOld
  | acquisitionFailed
  | verificationFailed
deriving DecidableEq

/-- TORCH_CACHE_DIR.is_dir() in the world model. -/
def cacheIsDir (w : World) : Bool :=
  w.cache.isSome

/-- Existence of a named entry inside the cache tree ((TORCH_CACHE_DIR /
name).exists() or .is_dir()). -/
def hasEntry (w : World) (name : String) : Bool :=
  (w.cache.getD []).contains name

/-- The validity test install_torch and load_torch share: the cache
directory exists, the completion marker .setup_complete exists, and the
torch subdirectory is present. -/
def validCache (w : World) : Bool :=
  cacheIsDir w && hasEntry w ".setup_complete" && hasEntry w "torch"

/-- The two steps _install_torch performs before acquiring: delete the
cache directory when it exists without the completion marker (shutil.rmtree),
then create it (mkdir parents exist_ok).  The result is the state the
acquisition strategies run against. -/
def _install_torch_pre (w : World) : World :=
  let w1 :=
    if cacheIsDir w && !(hasEntry w ".setup_complete") then
      ({ cache := none } : World)
    else w
  match w1.cache with
  | none => { cache := some [] }
  | some _ => w1

/-- Embedding of cuda_setup._install_torch: clean an incomplete previous
install, recreate the cache directory, run the pip strategy chain
(collapsed to env.pip_ok: whether any of the three strategies succeeds),
and on success write the .cuda_variant and .setup_complete markers; on
exhaustion raise AcquisitionFailed leaving the recreated cache in place. -/
def _install_torch (env : InstallEnv) (w : World) : World × Option SetupError :=
  let w1 := _install_torch_pre w
  if env.pip_ok then
    ({ cache := some ((w1.cache.getD []) ++ env.pip_payload
        ++ [".cuda_variant", ".setup_complete"]) }, none)
  else
    (w1, some SetupError.acquisitionFailed)

/-- Embedding of cuda_setup.install_torch: return immediately on a valid
completed cache; otherwise probe the GPU, probe the CUDA version, resolve
the variant, acquire through _install_torch, and verify importability.
The middle component lists the acquisition operations performed. -/
def install_torch (env : InstallEnv) (w : World) :
    World × List SetupAction × Option SetupError :=
  if validCache w then
    (w, [], none)
  else
    match detect_nvidia_gpu env.smi with
    | none => (w, [SetupAction.probeGpu], some SetupError.hardwareAbsent)
    | some _ =>
      match detect_cuda_version env.smi with
      | none =>
        (w, [SetupAction.probeGpu, SetupAction.probeCuda],
          some SetupError.cudaUndetected)
      | some cv =>
        match get_best_torch_variant (String.mk cv) with
        | none =>
          (w, [SetupAction.probeGpu, SetupAction.probeCuda,
            SetupAction.resolveVariant], some SetupError.versionParseFailure)
        | some none =>
          (w, [SetupAction.probeGpu, SetupAction.probeCuda,
            SetupAction.resolveVariant], some SetupError.driverTooOld)
        | some (some _) =>
          match _install_torch env w with
          | (w1, some e) =>
            (w1, [SetupAction.probeGpu, SetupAction.probeCuda,
              SetupAction.resolveVariant, SetupAction.acquire], some e)
          | (w1, none) =>
            if env.torch_importable then
              (w1, [SetupAction.probeGpu, SetupAction.probeCuda,
                SetupAction.resolveVariant, SetupAction.acquire], none)
            else
              (w1, [SetupAction.probeGpu, SetupAction.probeCuda,
                SetupAction.resolveVariant, SetupAction.acquire],
                some SetupError.verificationFailed)

/-- Claim C2: when the installation cache is valid and complete (cache
directory present, completion marker present, torch subdirectory present),
install_torch returns immediately with no acquisition operation performed,
no error, and an unmodified cache; hence a second call behaves exactly
like the first, and calling it twice equals calling it once. -/
theorem claim2 (env : InstallEnv) (w : World) (h : validCache w = true) :
    install_torch env w = (w, ([] : List SetupAction), (none : Option SetupError)) ∧
    install_torch env (install_torch env w).1 = install_torch env w := by
  have h1 : install_torch env w = (w, [], none) := by
    simp [install_torch, h]
  exact ⟨h1, by rw [h1]; exact h1⟩

/-- Witness for claim2: a valid completed cache with an arbitrary probe
environment; the call performs nothing and changes nothing. -/
theorem claim2_witness :
    install_torch
      ⟨⟨some "nvidia-smi", RunOutcome.completed 0 "GeForce RTX 5070",
          RunOutcome.completed 0 "CUDA Version: 12.5"⟩, true, ["torch"], true⟩
      ⟨some ["torch", "torchaudio", ".cuda_variant", ".setup_complete"]⟩
      = (⟨some ["torch", "torchaudio", ".cuda_variant", ".setup_complete"]⟩,
          [], none) :=
  (claim2
    ⟨⟨some "nvidia-smi", RunOutcome.completed 0 "GeForce RTX 5070",
        RunOutcome.completed 0 "CUDA Version: 12.5"⟩, true, ["torch"], true⟩
    ⟨some ["torch", "torchaudio", ".cuda_variant", ".setup_complete"]⟩
    (by decide)).1

/-- Claim C3: a cache directory that exists without its completion marker
is deleted before acquiring again: the state _install_torch runs its
acquisition strategies against is an empty, freshly created cache
directory, so no content of the prior incomplete install survives, and
the whole of _install_torch behaves exactly as it would from a fresh
empty cache. -/
theorem claim3 (w : World) (es : List String) (h1 : w.cache = some es)
    (h2 : es.contains ".setup_complete" = false) :
    _install_torch_pre w = ({ cache := some [] } : World) ∧
    ∀ env, _install_torch env w = _install_torch env ({ cache := some [] } : World) := by
  have hd : cacheIsDir w = true := by
    simp only [cacheIsDir, h1, Option.isSome_some]
  have hm : hasEntry w ".setup_complete" = false := by
    simp only [hasEntry, h1, Option.getD_some]
    exact h2
  have hpre : _install_torch_pre w = ({ cache := some [] } : World) := by
    simp [_install_torch_pre, hd, hm]
  refine ⟨hpre, ?_⟩
  intro env
  have hfresh : _install_torch_pre ({ cache := some [] } : World)
      = ({ cache := some [] } : World) := by decide
  simp [_install_torch, hpre, hfresh]

/-- Witness for claim3: a cache holding leftover content but no completion
marker is reset to an empty directory before acquisition. -/
theorem claim3_witness :
    _install_torch_pre ⟨some ["torch", "junk.bin"]⟩ = ({ cache := some [] } : World) ∧
    ∀ env, _install_torch env ⟨some ["torch", "junk.bin"]⟩
      = _install_torch env ({ cache := some [] } : World) :=
  claim3 ⟨some ["torch", "junk.bin"]⟩ ["torch", "junk.bin"] rfl (by decide)

/-!
## Environment preparer: DLL preload ordering (_preload_torch_dlls)

The function lists torch/lib, sorts the DLL file names by lowercased name
(Python sorted with a key), and partitions them: names matching a priority
heading first, the rest next, and torch_python.dll strictly last.  The
directory listing is embedded as a list of file names; sorted() is embedded
as a stable insertion sort on the lowercased names.
-/

/-- Lowercased name of a file (Python name.lower()), as characters. -/
def pyLower (n : String) : List Char :=
  n.data.map Char.toLower

/-- Lexicographic strict comparison of character lists, the order Python
uses on the lowercased names when sorting. -/
def charListLt : List Char → List Char → Bool
  | [], [] => false
  | [], _ :: _ => true
  | _ :: _, [] => false
  | a :: as, b :: bs =>
    if a < b then true
    else if b < a then false
    else charListLt as bs

/-- Stable insertion of a name into a list sorted by lowercased name. -/
def sortedInsertDll (x : String) : List String → List String
  | [] => [x]
  | y :: ys =>
    if charListLt (pyLower x) (pyLower y) then x :: y :: ys
    else y :: sortedInsertDll x ys

/-- Embedding of sorted(key=lambda p: p.name.lower()) on the directory
listing. -/
def sortDllsByName : List String → List String
  | [] => []
  | x :: xs => sortedInsertDll x (sortDllsByName xs)

/-- Embedding of cuda_setup.priority_prefixes: the headings of the
dependency-critical DLLs (math and compute kernels, communication
libraries, then the core torch runtime libraries), copied verbatim from
the source. -/
def priorityHeadings : List String :=
  [ "cudart64", "cublas64", "cublasLt64", "cudnn64", "cudnn_",
    "cufft64", "cufftw64", "curand64", "cusolver64", "cusolverMg64",
    "cusparse64", "nvrtc", "nvJitLink", "nvToolsExt", "nvperf",
    "cupti64", "zlibwapi", "libiomp5md", "libiompstubs5md",
    "caffe2", "shm",
    "c10.dll", "torch_global_deps", "torch_cpu", "torch.dll",
    "c10_cuda", "torch_cuda", "uv.dll" ]

/-- A DLL name matches the priority partition when its lowercased name
starts with one of the lowercased priority headings. -/
def is_priority_dll (n : String) : Bool :=
  priorityHeadings.any (fun p => isStartOf (pyLower p) (pyLower n))

/-- The loop state of the partition in _preload_torch_dlls: the priority
list, the remaining list, and the torch_python.dll slot. -/
structure PreloadState where
  priority : List String
  remaining : List String
  torchPython : Option String
deriving DecidableEq

/-- One iteration of the partition loop: remember torch_python.dll for
the end, else append to priority when a heading matches, else append to
remaining. -/
def preload_step (s : PreloadState) (n : String) : PreloadState :=
  if pyLower n = "torch_python.dll".data then
    { s with torchPython := some n }
  else if is_priority_dll n then
    { s with priority := s.priority ++ [n] }
  else
    { s with remaining := s.remaining ++ [n] }

/-- Embedding of the load-order computation of
cuda_setup._preload_torch_dlls: sort the discovered DLL names by
lowercased name, partition them, and emit priority files, then remaining
files, then torch_python.dll when present. -/
def _preload_torch_dlls (files : List String) : List String :=
  let st := (sortDllsByName files).foldl preload_step ⟨[], [], none⟩
  st.priority ++ st.remaining ++ st.torchPython.toList

/-- Sanity check of the preload-order embedding: torch_python.dll sorts
lexicographically before neither sibling here, yet still loads last, and
the priority file loads first. -/
theorem preload_order_sample :
    _preload_torch_dlls ["torch_python.dll", "asmjit.dll", "cudart64_12.dll"]
      = ["cudart64_12.dll", "asmjit.dll", "torch_python.dll"] := by decide

theorem mem_sortedInsertDll {a x : String} :
    ∀ {l : List String}, a ∈ sortedInsertDll x l ↔ a = x ∨ a ∈ l := by
  intro l
  induction l with
  | nil => simp [sortedInsertDll]
  | cons y ys ih =>
    simp only [sortedInsertDll]
    split_ifs with h
    · simp
    · simp only [List.mem_cons, ih]
      tauto

theorem mem_sortDllsByName {a : String} :
    ∀ {l : List String}, a ∈ sortDllsByName l ↔ a ∈ l := by
  intro l
  induction l with
  | nil => simp [sortDllsByName]
  | cons x xs ih =>
    simp only [sortDllsByName, mem_sortedInsertDll, List.mem_cons, ih]

/-- Invariant of the partition loop state: priority holds only matching
non-bridge names, remaining only non-matching non-bridge names, and the
bridge slot only torch_python.dll itself. -/
def GoodPreloadState (s : PreloadState) : Prop :=
  (∀ x ∈ s.priority,
      is_priority_dll x = true ∧ pyLower x ≠ "torch_python.dll".data) ∧
  (∀ x ∈ s.remaining,
      is_priority_dll x = false ∧ pyLower x ≠ "torch_python.dll".data) ∧
  (∀ tp, s.torchPython = some tp → pyLower tp = "torch_python.dll".data)

theorem preload_step_good {s : PreloadState} {n : String}
    (h : GoodPreloadState s) : GoodPreloadState (preload_step s n) := by
  obtain ⟨hp, hr, ht⟩ := h
  simp only [preload_step]
  split_ifs with h1 h2
  · exact ⟨hp, hr, fun tp htp => by cases htp; exact h1⟩
  · refine ⟨?_, hr, ht⟩
    intro x hx
    rcases List.mem_append.mp hx with hx | hx
    · exact hp x hx
    · simp only [List.mem_singleton] at hx
      subst hx
      exact ⟨h2, h1⟩
  · refine ⟨hp, ?_, ht⟩
    intro x hx
    rcases List.mem_append.mp hx with hx | hx
    · exact hr x hx
    · simp only [List.mem_singleton] at hx
      subst hx
      exact ⟨by simpa using h2, h1⟩

theorem preload_foldl_good {s : PreloadState} (h : GoodPreloadState s) :
    ∀ {l : List String}, GoodPreloadState (l.foldl preload_step s) := by
  intro l
  induction l generalizing s with
  | nil => exact h
  | cons n ns ih => exact ih (preload_step_good h)

theorem preload_step_keeps {s : PreloadState} {n : String}
    (h : s.torchPython.isSome = true) :
    (preload_step s n).torchPython.isSome = true := by
  simp only [preload_step]
  split_ifs <;> simp_all

theorem preload_foldl_keeps {s : PreloadState}
    (h : s.torchPython.isSome = true) :
    ∀ {l : List String}, (l.foldl preload_step s).torchPython.isSome = true := by
  intro l
  induction l generalizing s with
  | nil => exact h
  | cons n ns ih => exact ih (preload_step_keeps h)

theorem preload_foldl_some {l : List String} :
    ∀ {s : PreloadState}, (∃ f ∈ l, pyLower f = "torch_python.dll".data) →
      (l.foldl preload_step s).torchPython.isSome = true := by
  induction l with
  | nil => intro s h; simp at h
  | cons n ns ih =>
    intro s h
    rcases h with ⟨f, hf, hfl⟩
    rcases List.mem_cons.mp hf with hf | hf
    · subst hf
      have hstep : (preload_step s f).torchPython.isSome = true := by
        simp [preload_step, hfl]
      exact preload_foldl_keeps hstep
    · exact ih ⟨f, hf, hfl⟩

/-- Claim C4: for every finite listing of the runtime's primary library
directory containing the entry bridge torch_python.dll (detected by its
lowercased name, so at any lexicographic position), the preload order of
_preload_torch_dlls decomposes as priority files, then remaining files,
then torch_python.dll strictly last; every priority file matches a
priority heading, no remaining file does, and the bridge file appears
nowhere else. -/
theorem claim4 (files : List String)
    (h : ∃ f ∈ files, pyLower f = "torch_python.dll".data) :
    ∃ p r tp, _preload_torch_dlls files = p ++ r ++ [tp] ∧
      pyLower tp = "torch_python.dll".data ∧
      (∀ x ∈ p, is_priority_dll x = true) ∧
      (∀ x ∈ r, is_priority_dll x = false) ∧
      (∀ x ∈ p ++ r, pyLower x ≠ "torch_python.dll".data) := by
  have hsorted : ∃ f ∈ sortDllsByName files,
      pyLower f = "torch_python.dll".data := by
    rcases h with ⟨f, hf, hfl⟩
    exact ⟨f, mem_sortDllsByName.mpr hf, hfl⟩
  have hsome := preload_foldl_some (s := ⟨[], [], none⟩) hsorted
  have hgood : GoodPreloadState
      ((sortDllsByName files).foldl preload_step ⟨[], [], none⟩) :=
    preload_foldl_good (by refine ⟨?_, ?_, ?_⟩ <;> simp)
  set st := (sortDllsByName files).foldl preload_step ⟨[], [], none⟩ with hst
  rcases Option.isSome_iff_exists.mp hsome with ⟨tp, htp⟩
  refine ⟨st.priority, st.remaining, tp, ?_, hgood.2.2 tp htp, ?_, ?_, ?_⟩
  · simp [_preload_torch_dlls, ← hst, htp]
  · exact fun x hx => (hgood.1 x hx).1
  · exact fun x hx => (hgood.2.1 x hx).1
  · intro x hx
    rcases List.mem_append.mp hx with hx | hx
    · exact (hgood.1 x hx).2
    · exact (hgood.2.1 x hx).2

/-- Witness for claim4: a listing in which torch_python.dll sorts before a
sibling library still yields a preload order ending in torch_python.dll. -/
theorem claim4_witness :
    (∃ f ∈ ["cublas64_12.dll", "torch_python.dll", "zlibwapi.dll"],
      pyLower f = "torch_python.dll".data) ∧
    (∃ p r tp,
      _preload_torch_dlls ["cublas64_12.dll", "torch_python.dll", "zlibwapi.dll"]
          = p ++ r ++ [tp] ∧
        pyLower tp = "torch_python.dll".data ∧
        (∀ x ∈ p, is_priority_dll x = true) ∧
        (∀ x ∈ r, is_priority_dll x = false) ∧
        (∀ x ∈ p ++ r, pyLower x ≠ "torch_python.dll".data)) :=
  ⟨by decide,
    claim4 ["cublas64_12.dll", "torch_python.dll", "zlibwapi.dll"] (by decide)⟩

/-!
## Process supervisor: single-instance lock (main.py)

The lock file is embedded as Option String (none: absent; some c: present
with contents c).  int(contents.strip()) is embedded by parsePid, whose
none models the ValueError on a malformed file, which the code catches
and treats as a stale lock.  Liveness of a PID (the OpenProcess check) is
an oracle in the environment; an OSError there is likewise the stale
path, so only the live outcome differs.
-/

/-- Environment of the lock code: this process's PID and the liveness
oracle (whether OpenProcess succeeds on a PID). -/
structure LockEnv where
  self_pid : Nat
  alive : Nat → Bool

/-- Embedding of int(f.read().strip()) on the lock file contents: none
models the ValueError raised on a malformed file. -/
def parsePid (contents : String) : Option Nat :=
  parseNatDigits (pyStrip contents.data)

/-- Embedding of main._ensure_single_instance.  Input: the lock file
state.  Output: the lock file state afterwards, and whether the process
exited immediately (sys.exit(0) on finding a live owner).  A dead PID or
malformed contents fall through to writing this process's own PID. -/
def _ensure_single_instance (env : LockEnv) (lock : Option String) :
    Option String × Bool :=
  match lock with
  | some contents =>
    match parsePid contents with
    | some pid =>
      if env.alive pid then
        (some contents, true)
      else
        (some (toString env.self_pid), false)
    | none => (some (toString env.self_pid), false)
  | none => (some (toString env.self_pid), false)

/-- Embedding of main._cleanup_lock: remove the lock file only when it
still parses to this process's own PID; a missing file, malformed
contents (caught ValueError) or another PID leave it untouched. -/
def _cleanup_lock (env : LockEnv) (lock : Option String) : Option String :=
  match lock with
  | none => none
  | some contents =>
    match parsePid contents with
    | some pid => if pid = env.self_pid then none else some contents
    | none => some contents

/-- Claim C5: a lock file naming a live PID makes a new instance exit
immediately with the lock contents unchanged; a dead PID or malformed
contents make it reclaim the lock by overwriting with its own PID and
continue; and the registered cleanup removes the lock file exactly when
the file still names this process's own PID. -/
theorem claim5 :
    (∀ (env : LockEnv) (c : String) (pid : Nat),
      parsePid c = some pid → env.alive pid = true →
      _ensure_single_instance env (some c) = (some c, true)) ∧
    (∀ (env : LockEnv) (c : String) (pid : Nat),
      parsePid c = some pid → env.alive pid = false →
      _ensure_single_instance env (some c) = (some (toString env.self_pid), false)) ∧
    (∀ (env : LockEnv) (c : String), parsePid c = none →
      _ensure_single_instance env (some c) = (some (toString env.self_pid), false)) ∧
    (∀ env : LockEnv,
      _ensure_single_instance env none = (some (toString env.self_pid), false)) ∧
    (∀ (env : LockEnv) (c : String),
      _cleanup_lock env (some c) = none ↔ parsePid c = some env.self_pid) := by
  refine ⟨?_, ?_, ?_, ?_, ?_⟩
  · intro env c pid hp ha
    simp [_ensure_single_instance, hp, ha]
  · intro env c pid hp ha
    simp [_ensure_single_instance, hp, ha]
  · intro env c hp
    simp [_ensure_single_instance, hp]
  · intro env
    rfl
  · intro env c
    simp only [_cleanup_lock]
    cases hp : parsePid c with
    | none => simp
    | some pid => by_cases he : pid = env.self_pid <;> simp [he]

/-- Witness for claim5: a live owner with PID 42 makes the new instance
with PID 7 exit without touching the lock, and cleanup run by the owner
itself removes the lock. -/
theorem claim5_witness :
    _ensure_single_instance ⟨7, fun _ => true⟩ (some "42") = (some "42", true) ∧
    (_cleanup_lock ⟨42, fun _ => true⟩ (some "42") = none ↔
      parsePid "42" = some 42) :=
  ⟨claim5.1 ⟨7, fun _ => true⟩ "42" 42 (by decide) rfl,
    claim5.2.2.2.2 ⟨42, fun _ => true⟩ "42"⟩

/-!
## Process supervisor: watchdog termination behaviour (main.py)

The parent watchdog _monitor_parent reacts to a vanished parent with
os._exit(0): unconditional, immediate termination of the whole process.
The stdin watchdog watch_stdin reacts to end-of-stream with sys.exit(0);
sys.exit raises SystemExit, and in a thread other than the main thread an
uncaught SystemExit ends only that thread, silently - the process keeps
running.  Both reactions are embedded as a TermEffect.
-/

/-- What a watchdog body does to the process when its trigger fires:
terminate the whole process (os._exit) or end only its own thread (an
uncaught SystemExit in a non-main thread). -/
inductive TermEffect where
  | processExit (code : Nat)
  | threadExit
deriving DecidableEq

/-- Embedding of main._monitor_parent: polling while the parent runs, and
os._exit(0) - whole-process termination - once it is gone (or once psutil
raises). -/
def _monitor_parent (parent_running : Bool) : Option TermEffect :=
  if parent_running then none else some (TermEffect.processExit 0)

/-- Embedding of main.watch_stdin, which runs on a daemon thread: blocked
while stdin is open, and on end-of-stream sys.exit(0), i.e. SystemExit
raised on that non-main thread, which terminates only the watchdog
thread. -/
def watch_stdin (stdin_eof : Bool) : Option TermEffect :=
  if stdin_eof then some TermEffect.threadExit else none

/-- Claim C7 (refuted - the code diverges from the claim): stdin
end-of-stream is claimed to terminate the process exactly as the parent
watchdog does, but the embedded effects differ: the parent watchdog
performs a whole-process exit while the stdin watchdog only ends its own
thread, so the two termination behaviours are not equivalent. -/
theorem claim7 :
    watch_stdin true = some TermEffect.threadExit ∧
    _monitor_parent false = some (TermEffect.processExit 0) ∧
    watch_stdin true ≠ _monitor_parent false := by
  decide

/-!
## Runtime installer: matching system interpreter (_find_matching_system_python)

Candidate commands are probed in the order the code builds them.  The
code first appends pythonMAJ.MIN, pythonMAJ, python, python3 and then -
when the py launcher exists - inserts the launcher candidate at index 0,
so the launcher is probed FIRST, before the exact versioned name.  Each
candidate is resolved (shutil.which, or the launcher path), asked for its
version, and its pip checked; the first candidate passing everything
wins.  The subprocess results are oracles in the environment.
-/

/-- Environment of the interpreter search: the py launcher path found by
shutil.which("py"), shutil.which for plain candidates, the major.minor
string each candidate reports for itself (none models any exception during
the query), and whether the candidate's pip invocation exits with 0. -/
structure PyEnv where
  launcher : Option String
  which : String → Option String
  reported : String → Option String
  pipOk : String → Bool

/-- The "MAJOR.MINOR" version string the frozen interpreter needs. -/
def pyVersionString (ma mi : Nat) : String :=
  toString ma ++ "." ++ toString mi

/-- The sentinel candidate name the code uses for the py launcher. -/
def pyLauncherToken (ma mi : Nat) : String :=
  "__py_launcher__" ++ pyVersionString ma mi

/-- The candidate list _find_matching_system_python builds: the exact
versioned name, the major-only name, python, python3, with the launcher
sentinel inserted at position 0 when the launcher exists. -/
def py_candidates (ma mi : Nat) (hasLauncher : Bool) : List String :=
  let base := ["python" ++ pyVersionString ma mi,
    "python" ++ toString ma, "python", "python3"]
  if hasLauncher then pyLauncherToken ma mi :: base else base

/-- Resolution of a candidate to an executable: the launcher sentinel uses
the launcher path, every other candidate goes through shutil.which. -/
def py_exe_of (env : PyEnv) (cand : String) : Option String :=
  if isStartOf ("__py_launcher__".data) cand.data then env.launcher
  else env.which cand

/-- The probe loop of _find_matching_system_python over the candidate
list: skip a candidate whose executable cannot be resolved, whose version
query fails or mismatches, or whose pip is not invocable; return the
first resolved executable passing all checks. -/
def _find_matching_python_loop (env : PyEnv) (need : String) :
    List String → Option String
  | [] => none
  | cand :: rest =>
    match py_exe_of env cand with
    | none => _find_matching_python_loop env need rest
    | some exe =>
      match env.reported cand with
      | none => _find_matching_python_loop env need rest
      | some found =>
        if found = need then
          if env.pipOk cand then some exe
          else _find_matching_python_loop env need rest
        else _find_matching_python_loop env need rest

/-- Embedding of cuda_setup._find_matching_system_python for a frozen
interpreter of version (ma, mi). -/
def _find_matching_system_python (env : PyEnv) (ma mi : Nat) : Option String :=
  _find_matching_python_loop env (pyVersionString ma mi)
    (py_candidates ma mi env.launcher.isSome)

/-- A candidate passes the probe when it resolves to an executable, its
reported version equals the needed one, and its pip is invocable. -/
def py_candidate_passes (env : PyEnv) (need : String) (cand : String) : Bool :=
  match py_exe_of env cand, env.reported cand with
  | some _, some found => found = need && env.pipOk cand
  | _, _ => false

/-- Counterexample to claim C8: at version 3.12 with the py launcher
present, the first candidate probed is the launcher sentinel, not the
exact versioned name, and in an environment where every candidate would
pass validation the function returns the launcher's executable rather
than the resolved python3.12 - so the claimed preference order (exact
versioned name before the version-flag launcher) does not hold. -/
theorem claim8_counterexample :
    (py_candidates 3 12 true).head? = some "__py_launcher__3.12" ∧
    "__py_launcher__3.12" ≠ "python3.12" ∧
    _find_matching_system_python
        ⟨some "C:/Windows/py.exe", fun c => some ("/usr/bin/" ++ c),
          fun _ => some "3.12", fun _ => true⟩ 3 12
      = some "C:/Windows/py.exe" ∧
    some "C:/Windows/py.exe" ≠ some "/usr/bin/python3.12" := by
  refine ⟨by decide, by decide, by decide, by decide⟩

/-- Claim C8 as amended: the fixed preference order puts the version-flag
launcher first whenever the launcher exists, followed by the exact
versioned name, the major-only name, and the generic names python and
python3; each candidate is validated by resolving it, asking it to report
its own version, and confirming its package manager is invocable, and the
first candidate passing all checks is returned. -/
theorem claim8_amended (env : PyEnv) (ma mi : Nat) :
    py_candidates ma mi true =
      [pyLauncherToken ma mi, "python" ++ pyVersionString ma mi,
        "python" ++ toString ma, "python", "python3"] ∧
    py_candidates ma mi false =
      ["python" ++ pyVersionString ma mi,
        "python" ++ toString ma, "python", "python3"] ∧
    (∀ (need : String) (cands : List String),
      _find_matching_python_loop env need cands =
        (cands.find? (py_candidate_passes env need)).bind (py_exe_of env)) ∧
    _find_matching_system_python env ma mi =
      ((py_candidates ma mi env.launcher.isSome).find?
        (py_candidate_passes env (pyVersionString ma mi))).bind (py_exe_of env) := by
  have hloop : ∀ (need : String) (cands : List String),
      _find_matching_python_loop env need cands =
        (cands.find? (py_candidate_passes env need)).bind (py_exe_of env) := by
    intro need cands
    induction cands with
    | nil => rfl
    | cons cand rest ih =>
      simp only [_find_matching_python_loop, List.find?]
      cases hexe : py_exe_of env cand with
      | none =>
        have hpass : py_candidate_passes env need cand = false := by
          simp [py_candidate_passes, hexe]
        simp [hpass, ih]
      | some exe =>
        cases hrep : env.reported cand with
        | none =>
          have hpass : py_candidate_passes env need cand = false := by
            simp [py_candidate_passes, hexe, hrep]
          simp [hpass, ih]
        | some found =>
          by_cases hf : found = need
          · by_cases hp : env.pipOk cand = true
            · have hpass : py_candidate_passes env need cand = true := by
                simp [py_candidate_passes, hexe, hrep, hf, hp]
              simp [hpass, hf, hp, hexe]
            · rw [Bool.not_eq_true] at hp
              have hpass : py_candidate_passes env need cand = false := by
                simp [py_candidate_passes, hexe, hrep, hp]
              simp [hpass, hf, hp, ih]
          · have hpass : py_candidate_passes env need cand = false := by
              simp [py_candidate_passes, hexe, hrep, hf]
            simp [hpass, hf, ih]
  exact ⟨by simp [py_candidates], rfl, hloop,
    hloop (pyVersionString ma mi) (py_candidates ma mi env.launcher.isSome)⟩

end Noises
